import Mathlib

/-!
Shallow embedding of the discord-gatekeeper bot
(`src/discord_bot/guildGateKeeper/bot.py`) and proofs about its
onboarding verification gate, reconciliation sweep, raid mirror engine,
persistence layer and admin commands.

Conventions of the embedding:
* Discord roles are identified by their names (`String`), exactly as the
  source compares them (`r.name == NEWCOMER_ROLE`, `discord.utils.get(
  guild.roles, name=...)`).
* A member's live role set is a `List String`; a guild's configured
  roles (what `discord.utils.get(guild.roles, name=...)` can find) is a
  `List String` as well.
* The per-user entry of the `verified_users` dict is an `Option VRecord`
  (`none` = the user id is not a key of the dict); `dict.get(uid, {})`
  becomes `Option.getD store emptyRecord`.
* Python truthiness of absent/false flags becomes `Bool` with default
  `false`; an absent `"track"` key becomes `none`.
* External role mutations (`add_roles` / `remove_roles`) are modelled on
  the role-name list: adding prepends the name when missing, removing
  filters the name out.
-/

namespace Gatekeeper

/-! ## Configuration constants (bot.py, ENV / CONFIG section) -/

def VISITOR_ROLE : String := "Visitor"
def DEFAULT_TRACK : String := "member"
def VALID_TRACKS : List String := ["member", "visitor"]
def NEWCOMER_ROLE : String := "Newcomer"
def MEMBER_ROLE : String := "Guild Member"
def VERIFIED_DB : String := "verified_users.json"

def CLASS_ROLES : List String :=
  ["Druid", "Hunter", "Mage", "Paladin", "Priest",
   "Rogue", "Shaman", "Warlock", "Warrior"]

/-! ## Data model -/

/-- One entry of the `verified_users` dict.  Missing keys of the Python
dict are the `false` / `none` defaults here. -/
structure VRecord where
  track : Option String
  rules_accepted : Bool
  nickname_confirmed : Bool
  class_assigned : Bool
  verified : Bool
deriving DecidableEq, Repr

/-- `verified_users.get(uid, {})`: the record of a user that has no
entry yet. -/
def emptyRecord : VRecord :=
  { track := none, rules_accepted := false, nickname_confirmed := false,
    class_assigned := false, verified := false }

/-- `name in roles` on a list of role names. -/
def hasRole (roles : List String) (name : String) : Bool :=
  decide (name ∈ roles)

/-- `discord.utils.get(guild.roles, name=name)` succeeded. -/
def roleFound (guildRoles : List String) (name : String) : Bool :=
  decide (name ∈ guildRoles)

/-- `any(r.name in CLASS_ROLES for r in member.roles)`. -/
def hasAnyClassRole (roles : List String) : Bool :=
  decide (∃ r ∈ roles, r ∈ CLASS_ROLES)

/-- `member.remove_roles(role)`: the member no longer has the role. -/
def removeRole (roles : List String) (name : String) : List String :=
  roles.filter (fun r => decide (r ≠ name))

/-- `member.add_roles(role)`: idempotent grant. -/
def addRole (roles : List String) (name : String) : List String :=
  if name ∈ roles then roles else name :: roles

/-- Guild-level configuration the gate reads: which role names exist in
the guild and whether the `onboarding` text channel exists. -/
structure GateEnv where
  guildRoles : List String
  hasOnboarding : Bool
deriving DecidableEq, Repr

/-! ## Gate evaluator: `check_verification` (bot.py lines 701-823) -/

/-- `track = rec.get("track", DEFAULT_TRACK); if track not in
VALID_TRACKS: track = DEFAULT_TRACK`. -/
def resolveTrack (t : Option String) : String :=
  match t with
  | some t => if t ∈ VALID_TRACKS then t else DEFAULT_TRACK
  | none => DEFAULT_TRACK

/-- `rules_ok and nick_ok and class_ok` of `check_verification`. -/
def gateReady (store : Option VRecord) (roles : List String) : Bool :=
  let rec0 := store.getD emptyRecord
  rec0.rules_accepted && rec0.nickname_confirmed &&
    (rec0.class_assigned || hasAnyClassRole roles)

/-- `allow_promotion = is_newcomer or not is_already_verified`, where
`is_newcomer` requires the guild to actually have the Newcomer role
(`(newcomer_role in member.roles) if newcomer_role else False`). -/
def gateAllow (env : GateEnv) (store : Option VRecord) (roles : List String) : Bool :=
  (roleFound env.guildRoles NEWCOMER_ROLE && hasRole roles NEWCOMER_ROLE)
    || !(store.getD emptyRecord).verified

/-- Externally observable outcome of one `check_verification` call:
the (possibly) updated `verified_users` entry, the member's final role
set, and which external mutations / notices actually happened. -/
structure GateOut where
  store : Option VRecord
  roles : List String
  addedTarget : Bool
  removedOther : Bool
  removedNewcomer : Bool
  persisted : Bool
  notice : Bool
deriving DecidableEq, Repr

/-- The two early `return`s of `check_verification`: nothing is touched. -/
def gateNoop (store : Option VRecord) (roles : List String) : GateOut :=
  { store := store, roles := roles, addedTarget := false, removedOther := false,
    removedNewcomer := false, persisted := false, notice := false }

/-- The promotion tail of `check_verification` (reached only when both
guards pass). -/
def gatePromote (env : GateEnv) (store : Option VRecord) (roles : List String) : GateOut :=
  let rec0 := store.getD emptyRecord
  let track := resolveTrack rec0.track
  let newcomerFound := roleFound env.guildRoles NEWCOMER_ROLE
  let memberFound := roleFound env.guildRoles MEMBER_ROLE
  let visitorFound := roleFound env.guildRoles VISITOR_ROLE
  let targetName := if track = "member" then MEMBER_ROLE else VISITOR_ROLE
  let targetFound := if track = "member" then memberFound else visitorFound
  let otherName := if track = "member" then VISITOR_ROLE else MEMBER_ROLE
  let otherFound := if track = "member" then visitorFound else memberFound
  -- "Add target role if missing"
  let addTgt := targetFound && !hasRole roles targetName
  let roles1 := if addTgt then targetName :: roles else roles
  -- "Ensure the opposite track role is not lingering"
  let remOther := otherFound && hasRole roles1 otherName
  let roles2 := if remOther then removeRole roles1 otherName else roles1
  -- "Remove Newcomer if present"
  let remNew := newcomerFound && hasRole roles2 NEWCOMER_ROLE
  let roles3 := if remNew then removeRole roles2 NEWCOMER_ROLE else roles2
  -- "Persist verified flag"
  let doPersist := !rec0.verified
  let rec1 := if doPersist then { rec0 with verified := true } else rec0
  let store1 := if doPersist then some rec1 else store
  -- "Channel notice" (only if the onboarding channel exists and a
  -- mutation actually happened)
  { store := store1, roles := roles3, addedTarget := addTgt,
    removedOther := remOther, removedNewcomer := remNew,
    persisted := doPersist, notice := env.hasOnboarding && (addTgt || remNew) }

/-- `check_verification(member)` as a pure transition on
(record entry, live role set). -/
def check_verification (env : GateEnv) (store : Option VRecord) (roles : List String) :
    GateOut :=
  if !(gateReady store roles) then gateNoop store roles
  else if !(gateAllow env store roles) then gateNoop store roles
  else gatePromote env store roles

/-! ## Verification UI events (VerificationView, bot.py lines 436-676) -/

/-- `VerificationView._set_track` (lines 474-479): store the proposed
track if valid, else the default track. -/
def set_track (store : Option VRecord) (track : String) : VRecord :=
  let rec0 := store.getD emptyRecord
  { rec0 with track := some (if track ∈ VALID_TRACKS then track else DEFAULT_TRACK) }

/-- `VerificationView._is_new_user` (lines 481-491): not verified yet
AND (currently has Newcomer OR has neither Guild Member nor Visitor).
Both role tests compare role names directly on `member.roles`. -/
def is_new_user (store : Option VRecord) (roles : List String) : Bool :=
  let rec0 := store.getD emptyRecord
  let has_newcomer := hasRole roles NEWCOMER_ROLE
  let has_track_role := decide (∃ r ∈ roles, r = MEMBER_ROLE ∨ r = VISITOR_ROLE)
  !rec0.verified && (has_newcomer || !has_track_role)

/-- Outcome of pressing a track button. -/
structure TrackOut where
  store : Option VRecord
  roles : List String
  accepted : Bool
  persisted : Bool
deriving DecidableEq, Repr

/-- `choose_member_track` / `choose_visitor_track` (lines 499-553):
reject unless the user is new; otherwise `_set_track` (which persists)
followed by `check_verification`. -/
def choose_track (env : GateEnv) (proposed : String) (store : Option VRecord)
    (roles : List String) : TrackOut :=
  if !(is_new_user store roles) then
    { store := store, roles := roles, accepted := false, persisted := false }
  else
    let store1 := some (set_track store proposed)
    let g := check_verification env store1 roles
    { store := g.store, roles := g.roles, accepted := true, persisted := true }

/-- `accept_rules` button (lines 561-585): early return when already
verified, else latch the flag, persist, and run the gate. -/
def accept_rules (env : GateEnv) (store : Option VRecord) (roles : List String) :
    Option VRecord × List String :=
  let rec0 := store.getD emptyRecord
  if rec0.verified then (store, roles)
  else
    let store1 := some { rec0 with rules_accepted := true }
    let g := check_verification env store1 roles
    (g.store, g.roles)

/-- `confirm_nickname` button (lines 593-628): same shape as
`accept_rules` for the `nickname_confirmed` flag. -/
def confirm_nickname (env : GateEnv) (store : Option VRecord) (roles : List String) :
    Option VRecord × List String :=
  let rec0 := store.getD emptyRecord
  if rec0.verified then (store, roles)
  else
    let store1 := some { rec0 with nickname_confirmed := true }
    let g := check_verification env store1 roles
    (g.store, g.roles)

/-- The class-removal loop shared by `ClassRoleSelect.callback`,
`on_raw_reaction_add` and `resetclass`: for every configured class role
that exists in the guild and is held, remove it. -/
def removeAllClassRoles (guildRoles roles : List String) : List String :=
  roles.filter (fun r => decide (¬(r ∈ CLASS_ROLES ∧ r ∈ guildRoles)))

/-- Outcome of a class-selection operation. `success` means the
selected role was found and granted. -/
structure ClassOut where
  store : Option VRecord
  roles : List String
  success : Bool
deriving DecidableEq, Repr

/-- `ClassRoleSelect.callback` (lines 642-676): remove all existing
class roles, then (if the selected role exists) grant it, latch
`class_assigned`, persist and run the gate. -/
def class_select_callback (env : GateEnv) (selected : String)
    (store : Option VRecord) (roles : List String) : ClassOut :=
  let roles1 := removeAllClassRoles env.guildRoles roles
  if roleFound env.guildRoles selected then
    let roles2 := addRole roles1 selected
    let rec0 := store.getD emptyRecord
    let store1 := some { rec0 with class_assigned := true }
    let g := check_verification env store1 roles2
    { store := g.store, roles := g.roles, success := true }
  else
    { store := store, roles := roles1, success := false }

/-- `on_raw_reaction_add` (lines 859-948), after the emoji has resolved
to `class_name`: remove every held class role, grant the mapped class
role if it exists, latch `class_assigned`, persist, then
`check_verification`. -/
def on_raw_reaction_class (env : GateEnv) (class_name : String)
    (store : Option VRecord) (roles : List String) : ClassOut :=
  let roles1 := removeAllClassRoles env.guildRoles roles
  if roleFound env.guildRoles class_name then
    let roles2 := addRole roles1 class_name
    let rec0 := store.getD emptyRecord
    let store1 := some { rec0 with class_assigned := true }
    let g := check_verification env store1 roles2
    { store := g.store, roles := g.roles, success := true }
  else
    { store := store, roles := roles1, success := false }

/-- `resetclass` (bot.py lines 1979-2020), the state-mutating core that
runs once the cooldown and permission guards pass: remove the member's
class roles and clear the persistent `class_assigned` flag. -/
def resetclass_core (guildRoles : List String) (store : Option VRecord)
    (roles : List String) : Option VRecord × List String :=
  let roles1 := removeAllClassRoles guildRoles roles
  let rec0 := store.getD emptyRecord
  (some { rec0 with class_assigned := false }, roles1)

/-! ## Reconciliation sweep: `retro_verify_existing_members`
(bot.py lines 1464-1588) -/

/-- `"member" if has_member else "visitor" if has_visitor else
DEFAULT_TRACK`. -/
def inferTrack (has_member has_visitor : Bool) : String :=
  if has_member then "member" else if has_visitor then "visitor" else DEFAULT_TRACK

/-- The track the sweep works with: the stored track when valid,
otherwise inferred from the currently held track roles. -/
def retroTrack (rec0 : VRecord) (has_member has_visitor : Bool) : String :=
  match rec0.track with
  | some t => if t ∈ VALID_TRACKS then t else inferTrack has_member has_visitor
  | none => inferTrack has_member has_visitor

/-- Per-member outcome of one sweep iteration. -/
structure RetroOut where
  store : Option VRecord
  roles : List String
  updated_db : Bool
  added_role : Bool
  removed_newcomer : Bool
deriving DecidableEq, Repr

/-- One iteration of the `for m in guild.members` loop of
`retro_verify_existing_members`.

The Python loop writes the inferred track back with
`rec["track"] = track` only when the stored track is invalid; since the
resolved track equals the stored one whenever it is valid, this is the
same as always storing the resolved track, which is what `rec1` does.
Because `verified_users.get(uid, {})` aliases the stored dict, that
write is visible in the store whenever the user already had an entry
(`aliased`), even on the paths that do not assign `verified_users[uid]`
explicitly. -/
def retroStep (g : List String) (store : Option VRecord) (roles : List String) :
    RetroOut :=
  let memberFound := roleFound g MEMBER_ROLE
  let visitorFound := roleFound g VISITOR_ROLE
  let newcomerFound := roleFound g NEWCOMER_ROLE
  let rec0 := store.getD emptyRecord
  let has_member := memberFound && hasRole roles MEMBER_ROLE
  let has_visitor := visitorFound && hasRole roles VISITOR_ROLE
  let has_newcomer := newcomerFound && hasRole roles NEWCOMER_ROLE
  let has_class := hasAnyClassRole roles
  let track := retroTrack rec0 has_member has_visitor
  let rec1 := { rec0 with track := some track }
  let targetFound := if track = "member" then memberFound else visitorFound
  let targetName := if track = "member" then MEMBER_ROLE else VISITOR_ROLE
  let has_target := targetFound && hasRole roles targetName
  let aliased : Option VRecord := if store.isSome then some rec1 else none
  -- Case A: has target role but DB not verified
  if has_target && !rec1.verified then
    let recA := { rec1 with
      verified := true, rules_accepted := true, nickname_confirmed := true,
      class_assigned := rec1.class_assigned || has_class }
    if has_newcomer then
      { store := some recA, roles := removeRole roles NEWCOMER_ROLE,
        updated_db := true, added_role := false, removed_newcomer := true }
    else
      { store := some recA, roles := roles,
        updated_db := true, added_role := false, removed_newcomer := false }
  -- Case B: DB verified but target role missing (and the role exists)
  else if rec1.verified && !has_target && targetFound then
    let roles1 := targetName :: roles
    if has_newcomer then
      { store := aliased, roles := removeRole roles1 NEWCOMER_ROLE,
        updated_db := false, added_role := true, removed_newcomer := true }
    else
      { store := aliased, roles := roles1,
        updated_db := false, added_role := true, removed_newcomer := false }
  -- Case C: verified with a stray Newcomer
  else if rec1.verified && has_newcomer then
    { store := aliased, roles := removeRole roles NEWCOMER_ROLE,
      updated_db := false, added_role := false, removed_newcomer := true }
  else
    { store := aliased, roles := roles,
      updated_db := false, added_role := false, removed_newcomer := false }

/-- The whole sweep over a guild: every member is visited once; the
three counters `updated_db`, `added_role`, `removed_newcomer` are
accumulated.  Distinct members have distinct user ids, so their record
entries and role sets are independent. -/
def retroSweep (g : List String) :
    List (Option VRecord × List String) →
      List (Option VRecord × List String) × Nat × Nat × Nat
  | [] => ([], 0, 0, 0)
  | (s, r) :: rest =>
    let o := retroStep g s r
    let t := retroSweep g rest
    ((o.store, o.roles) :: t.1,
      (if o.updated_db then 1 else 0) + t.2.1,
      (if o.added_role then 1 else 0) + t.2.2.1,
      (if o.removed_newcomer then 1 else 0) + t.2.2.2)

/-! ## Raid mirror engine: `CurrentWeekRaidMirror`
(bot.py lines 278-393) -/

/-- One binding of the persistent mirror state:
`{"source_msg_id": ..., "dest_msg_id": ...}`. -/
structure MirrorInfo where
  source_msg_id : Option Nat
  dest_msg_id : Option Nat
deriving DecidableEq, Repr

/-- Python truthiness of `info.get("dest_msg_id")`. -/
def truthy : Option Nat → Bool
  | some n => decide (n ≠ 0)
  | none => false

/-- The persisted mirror state: `{"week_key": ..., "mirrors": {...}}`.
The mirrors dict is an association list with at most one entry per
raid-key (the insert below replaces). -/
structure MirrorState where
  week_key : Option String
  mirrors : List (String × MirrorInfo)
deriving DecidableEq, Repr

/-- `self.state["mirrors"].get(raidkey)`. -/
def alookup (k : String) (l : List (String × MirrorInfo)) : Option MirrorInfo :=
  (l.find? (fun p => decide (p.1 = k))).map (fun p => p.2)

/-- `self.state["mirrors"].pop(raidkey, None)` (the remaining dict). -/
def apop (k : String) (l : List (String × MirrorInfo)) : List (String × MirrorInfo) :=
  l.filter (fun p => decide (p.1 ≠ k))

/-- `self.state["mirrors"][raidkey] = info` (dict assignment). -/
def ainsert (k : String) (v : MirrorInfo) (l : List (String × MirrorInfo)) :
    List (String × MirrorInfo) :=
  (k, v) :: apop k l

/-- The truthy destination-message ids currently bound in the state
(the ones `_ensure_week`'s purge loop tries to delete). -/
def boundDestIds (st : MirrorState) : List Nat :=
  st.mirrors.filterMap (fun p =>
    match p.2.dest_msg_id with
    | some n => if n ≠ 0 then some n else none
    | none => none)

/-- Result of `_ensure_week`: the new state, the destination messages
still alive, and whether `_save_state` ran. -/
structure EnsureOut where
  state : MirrorState
  live : List Nat
  persisted : Bool
deriving DecidableEq, Repr

/-- `CurrentWeekRaidMirror._ensure_week` (lines 283-301).  `wk_now` is
the computed UTC ISO week key, `destChannelFound` whether the
destination channel was found, `live` the ids of currently existing
destination messages.  Deleting an id that is already gone raises
`NotFound`, which the source swallows, so the purge is simply set
difference on the live ids. -/
def ensure_week (wk_now : String) (destChannelFound : Bool) (st : MirrorState)
    (live : List Nat) : EnsureOut :=
  if st.week_key = some wk_now then
    { state := st, live := live, persisted := false }
  else
    let live' :=
      if destChannelFound then live.filter (fun mid => decide (mid ∉ boundDestIds st))
      else live
    { state := { week_key := some wk_now, mirrors := [] }, live := live',
      persisted := true }

/-- A message in the destination channel, tagged with the raid-key it
mirrors. -/
structure DestMsg where
  id : Nat
  key : String
deriving DecidableEq, Repr

/-- The world the mirror cog acts on for a fixed week: the persisted
state, the destination messages currently alive, and the id the
platform will give to the next sent message (ids are increasing). -/
structure MirrorWorld where
  st : MirrorState
  live : List DestMsg
  nextId : Nat
deriving DecidableEq, Repr

/-- `CurrentWeekRaidMirror._post_or_replace` (lines 320-340):
skip if the source message has no embeds or the destination channel is
missing; delete the previously bound destination message (tolerating
not-found); send the fresh clone; bind and persist. -/
def post_or_replace (destChannelFound : Bool) (raidkey : String) (srcId : Nat)
    (srcHasEmbeds : Bool) (w : MirrorWorld) : MirrorWorld :=
  if !srcHasEmbeds then w
  else if !destChannelFound then w
  else
    let live1 :=
      match alookup raidkey w.st.mirrors with
      | some info =>
        if truthy info.dest_msg_id then
          w.live.filter (fun m => decide (some m.id ≠ info.dest_msg_id))
        else w.live
      | none => w.live
    { st := { week_key := w.st.week_key,
              mirrors := ainsert raidkey
                { source_msg_id := some srcId, dest_msg_id := some w.nextId }
                w.st.mirrors },
      live := live1 ++ [{ id := w.nextId, key := raidkey }],
      nextId := w.nextId + 1 }

/-- `CurrentWeekRaidMirror._update_mirror` (lines 342-364): edit the
bound destination message in place when it is still fetchable; if it is
gone, drop the binding and persist (self-healing); otherwise leave
everything alone. -/
def update_mirror (destChannelFound : Bool) (raidkey : String)
    (srcHasEmbeds : Bool) (w : MirrorWorld) : MirrorWorld :=
  match alookup raidkey w.st.mirrors with
  | none => w
  | some stored =>
    if !truthy stored.dest_msg_id then w
    else if !srcHasEmbeds then w
    else if !destChannelFound then w
    else if w.live.any (fun m => decide (some m.id = stored.dest_msg_id)) then
      w  -- fetch succeeded: edit in place, no binding/live-set change
    else
      { st := { week_key := w.st.week_key, mirrors := apop raidkey w.st.mirrors },
        live := w.live, nextId := w.nextId }

/-- The mirror events that can hit a fixed week's state. -/
inductive MOp where
  | post (raidkey : String) (srcId : Nat) (srcHasEmbeds destChannelFound : Bool)
  | edit (raidkey : String) (srcHasEmbeds destChannelFound : Bool)
deriving DecidableEq, Repr

def MOp.apply (w : MirrorWorld) : MOp → MirrorWorld
  | .post raidkey srcId srcHasEmbeds destChannelFound =>
    post_or_replace destChannelFound raidkey srcId srcHasEmbeds w
  | .edit raidkey srcHasEmbeds destChannelFound =>
    update_mirror destChannelFound raidkey srcHasEmbeds w

def applyMirrorOps (w : MirrorWorld) (ops : List MOp) : MirrorWorld :=
  ops.foldl MOp.apply w

/-- The state `_ensure_week` leaves for a fresh week: empty mirrors, no
destination message of this week alive yet.  Platform message ids are
positive, so the first fresh id is 1. -/
def mirrorInit (wk : String) : MirrorWorld :=
  { st := { week_key := some wk, mirrors := [] }, live := [], nextId := 1 }

/-- Invariant tying the live destination messages to the bindings:
every live destination message of the week is the one currently bound
for its raid-key, ids are fresh-bounded and positive, no message is
listed twice, and the mirrors dict has at most one entry per key. -/
def MirrorInv (w : MirrorWorld) : Prop :=
  (∀ m ∈ w.live, ∃ i, alookup m.key w.st.mirrors = some i ∧
      i.dest_msg_id = some m.id) ∧
  (∀ m ∈ w.live, m.id < w.nextId) ∧
  (∀ m ∈ w.live, 0 < m.id) ∧
  w.live.Nodup ∧
  (w.st.mirrors.map Prod.fst).Nodup ∧
  1 ≤ w.nextId

/-! ## Persistence layer: `_safe_save_json` / `save_verified`
(bot.py lines 182-198) -/

/-- File-system effects a save can perform. -/
inductive FsOp where
  | openTruncate (path : String)
  | writeAll (path : String) (data : String)
  | renameOver (src dst : String)
deriving DecidableEq, Repr

def FsOp.isRenameOver : FsOp → Bool
  | .renameOver _ _ => true
  | _ => false

/-- The effect trace of `_safe_save_json(path, data)`:
`open(path, "w")` truncates the file in place, then `json.dump` writes
the serialized data.  No temporary file, no rename. -/
def safe_save_json_trace (path : String) (data : String) : List FsOp :=
  [FsOp.openTruncate path, FsOp.writeAll path data]

/-- `save_verified()` delegates to `_safe_save_json(VERIFIED_DB, ...)`. -/
def save_verified_trace (data : String) : List FsOp :=
  safe_save_json_trace VERIFIED_DB data

/-- Modelled from the spec: "write to temp, then rename/replace" — a
trace realizes the claimed atomic-overwrite protocol for `finalPath`
only if some rename lands on `finalPath`.  Used to compare the claim's
wording against the code's actual trace. -/
def usesTempThenRename (tr : List FsOp) (finalPath : String) : Bool :=
  tr.any (fun op =>
    match op with
    | .renameOver _ dst => decide (dst = finalPath)
    | _ => false)

/-- Run a trace against a toy file system (path contents association
list), to make the non-atomicity of the in-place overwrite observable:
a crash between the truncating open and the write leaves the file
empty. -/
def runFs (files : List (String × String)) : List FsOp → List (String × String)
  | [] => files
  | FsOp.openTruncate p :: rest =>
    runFs ((p, "") :: files.filter (fun q => decide (q.1 ≠ p))) rest
  | FsOp.writeAll p d :: rest =>
    runFs ((p, d) :: files.filter (fun q => decide (q.1 ≠ p))) rest
  | FsOp.renameOver src dst :: rest =>
    match (files.find? (fun q => decide (q.1 = src))).map (fun q => q.2) with
    | some content =>
      runFs ((dst, content) ::
        (files.filter (fun q => decide (q.1 ≠ src ∧ q.1 ≠ dst)))) rest
    | none => runFs files rest

/-- Content of a path after a trace ran. -/
def fileContent (files : List (String × String)) (p : String) : Option String :=
  (files.find? (fun q => decide (q.1 = p))).map (fun q => q.2)

/-! ## Basic lemmas about the helpers -/

theorem hasRole_iff {roles : List String} {n : String} :
    hasRole roles n = true ↔ n ∈ roles := by
  simp [hasRole]

theorem mem_removeRole {l : List String} {a b : String} :
    a ∈ removeRole l b ↔ a ∈ l ∧ a ≠ b := by
  simp [removeRole]

theorem hasRole_removeRole_self (l : List String) (a : String) :
    hasRole (removeRole l a) a = false := by
  simp [hasRole, mem_removeRole]

theorem hasRole_removeRole_of_ne {a b : String} (l : List String) (h : a ≠ b) :
    hasRole (removeRole l b) a = hasRole l a := by
  simp [hasRole, mem_removeRole, h]

theorem check_verification_of_not_ready {env : GateEnv} {store : Option VRecord}
    {roles : List String} (h : gateReady store roles = false) :
    check_verification env store roles = gateNoop store roles := by
  simp [check_verification, h]

theorem check_verification_of_not_allowed {env : GateEnv} {store : Option VRecord}
    {roles : List String} (h : gateAllow env store roles = false) :
    check_verification env store roles = gateNoop store roles := by
  by_cases hr : gateReady store roles <;> simp [check_verification, hr, h]

theorem check_verification_of_promote {env : GateEnv} {store : Option VRecord}
    {roles : List String} (hr : gateReady store roles = true)
    (ha : gateAllow env store roles = true) :
    check_verification env store roles = gatePromote env store roles := by
  simp [check_verification, hr, ha]

theorem mem_addRole {l : List String} {a b : String} :
    a ∈ addRole l b ↔ a = b ∨ a ∈ l := by
  unfold addRole
  by_cases h : b ∈ l
  · simp only [if_pos h]
    constructor
    · exact fun ha => Or.inr ha
    · rintro (rfl | ha)
      · exact h
      · exact ha
  · simp [if_neg h]

theorem mem_removeAllClassRoles {g l : List String} {a : String} :
    a ∈ removeAllClassRoles g l ↔ a ∈ l ∧ ¬(a ∈ CLASS_ROLES ∧ a ∈ g) := by
  simp [removeAllClassRoles, not_and]
  tauto

/-- A conditional removal with the removal flag guarding it: afterwards
the guarded role test is false. -/
theorem cond_remove_clears (b : Bool) (l : List String) (a : String) :
    (b && hasRole (if b && hasRole l a then removeRole l a else l) a) = false := by
  by_cases hb : b
  · by_cases hl : hasRole l a <;> simp [hb, hl, hasRole_removeRole_self]
  · simp [hb]

/-- After the promotion tail runs, the stored record is verified. -/
theorem gatePromote_store_verified (env : GateEnv) (store : Option VRecord)
    (roles : List String) :
    ((gatePromote env store roles).store.getD emptyRecord).verified = true := by
  by_cases h : (store.getD emptyRecord).verified <;> simp [gatePromote, h]

/-- After the promotion tail runs, the member no longer passes the
`is_newcomer` test of the gate. -/
theorem gatePromote_newcomer_cleared (env : GateEnv) (store : Option VRecord)
    (roles : List String) :
    (roleFound env.guildRoles NEWCOMER_ROLE &&
      hasRole (gatePromote env store roles).roles NEWCOMER_ROLE) = false := by
  simp only [gatePromote]
  exact cond_remove_clears _ _ _

/-- A verified member without the Newcomer role is left untouched by
the gate (the anti-flip guard). -/
theorem gate_noop_of_verified_no_newcomer (env : GateEnv) {store : Option VRecord}
    {roles : List String} (hv : (store.getD emptyRecord).verified = true)
    (hn : hasRole roles NEWCOMER_ROLE = false) :
    check_verification env store roles = gateNoop store roles := by
  apply check_verification_of_not_allowed
  simp [gateAllow, hv, hn]

theorem newcomer_not_class : NEWCOMER_ROLE ∉ CLASS_ROLES := by decide

theorem member_not_class : MEMBER_ROLE ∉ CLASS_ROLES := by decide

theorem visitor_not_class : VISITOR_ROLE ∉ CLASS_ROLES := by decide

theorem hasRole_addRole_of_ne {l : List String} {a b : String} (h : a ≠ b) :
    hasRole (addRole l b) a = hasRole l a := by
  simp [hasRole, mem_addRole, h]

theorem hasRole_removeAllClassRoles_of_not_class {g l : List String} {a : String}
    (h : a ∉ CLASS_ROLES) :
    hasRole (removeAllClassRoles g l) a = hasRole l a := by
  simp [hasRole, mem_removeAllClassRoles, h]

theorem emptyRecord_track : emptyRecord.track = none := rfl

theorem emptyRecord_rules : emptyRecord.rules_accepted = false := rfl

theorem emptyRecord_nick : emptyRecord.nickname_confirmed = false := rfl

theorem emptyRecord_class : emptyRecord.class_assigned = false := rfl

theorem emptyRecord_verified : emptyRecord.verified = false := rfl

theorem hasRole_cons_of_ne {l : List String} {a b : String} (h : a ≠ b) :
    hasRole (b :: l) a = hasRole l a := by
  simp [hasRole, h]

theorem hasRole_cons_self (l : List String) (a : String) :
    hasRole (a :: l) a = true := by
  simp [hasRole]

theorem targetName_ne_newcomer (tk : String) :
    (if tk = "member" then MEMBER_ROLE else VISITOR_ROLE) ≠ NEWCOMER_ROLE := by
  by_cases h : tk = "member" <;> simp [h] <;> decide

theorem retroTrack_mem (rec0 : VRecord) (hm hv : Bool) :
    retroTrack rec0 hm hv ∈ VALID_TRACKS := by
  have hinf : inferTrack hm hv ∈ VALID_TRACKS := by
    by_cases h1 : hm <;> by_cases h2 : hv <;>
      simp [inferTrack, h1, h2, DEFAULT_TRACK, VALID_TRACKS]
  cases htr : rec0.track with
  | none => simpa [retroTrack, htr] using hinf
  | some t =>
    by_cases ht : t ∈ VALID_TRACKS
    · simp [retroTrack, htr, ht]
    · simpa [retroTrack, htr, ht] using hinf

theorem vrecord_update_track_self {rec : VRecord} {tk : String}
    (h : rec.track = some tk) :
    ({ rec with track := some tk } : VRecord) = rec := by
  cases rec
  simp_all

theorem bool_aux1 (a b : Bool) : (!(a && b) && a) = (a && !b) := by cases a <;> cases b <;> rfl

theorem bool_aux2 (a b : Bool) : ((!a || !b) && a) = (a && !b) := by cases a <;> cases b <;> rfl

/-- The second-run no-op lemma for the reconciliation sweep: if a
member's stored record carries a valid track and none of the three
repair-case conditions fires, the sweep iteration leaves the pair
untouched and counts nothing. -/
theorem retroStep_noop_gen {g : List String} {rec' : VRecord} {roles' : List String}
    {tk : String} (htr : rec'.track = some tk) (htk : tk ∈ VALID_TRACKS)
    (hA : (((if tk = "member" then roleFound g MEMBER_ROLE else roleFound g VISITOR_ROLE)
        && hasRole roles' (if tk = "member" then MEMBER_ROLE else VISITOR_ROLE))
        && !rec'.verified) = false)
    (hB : ((rec'.verified
        && !((if tk = "member" then roleFound g MEMBER_ROLE else roleFound g VISITOR_ROLE)
          && hasRole roles' (if tk = "member" then MEMBER_ROLE else VISITOR_ROLE)))
        && (if tk = "member" then roleFound g MEMBER_ROLE else roleFound g VISITOR_ROLE))
        = false)
    (hC : (rec'.verified && (roleFound g NEWCOMER_ROLE && hasRole roles' NEWCOMER_ROLE))
        = false) :
    retroStep g (some rec') roles'
      = { store := some rec', roles := roles', updated_db := false,
          added_role := false, removed_newcomer := false } := by
  have htrk : ∀ hm hv : Bool, retroTrack rec' hm hv = tk := fun hm hv => by
    simp [retroTrack, htr, htk]
  have hrec : ({ rec' with track := some tk } : VRecord) = rec' :=
    vrecord_update_track_self htr
  simp only [retroStep, Option.getD_some, htrk, hrec, Option.isSome_some, hA, hB, hC,
    Bool.false_eq_true, if_false, if_true]

/-- One sweep iteration reaches a fixpoint: running `retroStep` again on
the store/role state it produced counts no mutation and changes
nothing. -/
theorem retroStep_converges (g : List String) (s : Option VRecord) (r : List String) :
    retroStep g (retroStep g s r).store (retroStep g s r).roles
      = { store := (retroStep g s r).store, roles := (retroStep g s r).roles,
          updated_db := false, added_role := false, removed_newcomer := false } := by
  cases s with
  | none =>
    rcases hs : retroStep g none r with ⟨ostore, oroles, u, a, n⟩
    simp only [hs]
    simp [retroStep, emptyRecord_track, emptyRecord_rules, emptyRecord_nick,
      emptyRecord_class, emptyRecord_verified] at hs
    have htk := retroTrack_mem emptyRecord
      (roleFound g MEMBER_ROLE && hasRole r MEMBER_ROLE)
      (roleFound g VISITOR_ROLE && hasRole r VISITOR_ROLE)
    simp [VALID_TRACKS] at htk
    rcases htk with hcase | hcase
    · simp only [hcase, reduceIte] at hs
      by_cases hA : roleFound g MEMBER_ROLE = true ∧ hasRole r MEMBER_ROLE = true
      · by_cases hN : roleFound g NEWCOMER_ROLE = true ∧ hasRole r NEWCOMER_ROLE = true
        · simp [hA, hN] at hs
          obtain ⟨h1, h2, -, -, -⟩ := hs
          subst h1; subst h2
          apply retroStep_noop_gen
          · rfl
          · decide
          · simp
          · simp [hasRole_removeRole_of_ne _ (by decide : MEMBER_ROLE ≠ NEWCOMER_ROLE),
              hA.1, hA.2]
          · simp [hasRole_removeRole_self]
        · simp [hA, hN] at hs
          obtain ⟨h1, h2, -, -, -⟩ := hs
          subst h1; subst h2
          apply retroStep_noop_gen
          · rfl
          · decide
          · simp
          · simp [hA.1, hA.2]
          · cases hnf : roleFound g NEWCOMER_ROLE <;>
              cases hnr : hasRole r NEWCOMER_ROLE <;> simp_all
      · simp [hA] at hs
        obtain ⟨h1, h2, -, -, -⟩ := hs
        subst h1; subst h2
        simp [retroStep, emptyRecord_track, emptyRecord_rules, emptyRecord_nick,
          emptyRecord_class, emptyRecord_verified, hcase, hA]
    · simp only [hcase, reduceIte] at hs
      by_cases hA : roleFound g VISITOR_ROLE = true ∧ hasRole r VISITOR_ROLE = true
      · by_cases hN : roleFound g NEWCOMER_ROLE = true ∧ hasRole r NEWCOMER_ROLE = true
        · simp [hA, hN] at hs
          obtain ⟨h1, h2, -, -, -⟩ := hs
          subst h1; subst h2
          apply retroStep_noop_gen
          · rfl
          · decide
          · simp
          · simp [hasRole_removeRole_of_ne _ (by decide : VISITOR_ROLE ≠ NEWCOMER_ROLE),
              hA.1, hA.2]
          · simp [hasRole_removeRole_self]
        · simp [hA, hN] at hs
          obtain ⟨h1, h2, -, -, -⟩ := hs
          subst h1; subst h2
          apply retroStep_noop_gen
          · rfl
          · decide
          · simp
          · simp [hA.1, hA.2]
          · cases hnf : roleFound g NEWCOMER_ROLE <;>
              cases hnr : hasRole r NEWCOMER_ROLE <;> simp_all
      · simp [hA] at hs
        obtain ⟨h1, h2, -, -, -⟩ := hs
        subst h1; subst h2
        simp [retroStep, emptyRecord_track, emptyRecord_rules, emptyRecord_nick,
          emptyRecord_class, emptyRecord_verified, hcase, hA]
  | some rec0 =>
    rcases hs : retroStep g (some rec0) r with ⟨ostore, oroles, u, a, n⟩
    simp only [hs]
    simp [retroStep] at hs
    have htk := retroTrack_mem rec0
      (roleFound g MEMBER_ROLE && hasRole r MEMBER_ROLE)
      (roleFound g VISITOR_ROLE && hasRole r VISITOR_ROLE)
    simp [VALID_TRACKS] at htk
    rcases htk with hcase | hcase
    · simp only [hcase, reduceIte] at hs
      by_cases hA : (roleFound g MEMBER_ROLE = true ∧ hasRole r MEMBER_ROLE = true) ∧
          rec0.verified = false
      · by_cases hN : roleFound g NEWCOMER_ROLE = true ∧ hasRole r NEWCOMER_ROLE = true
        · simp [hA, hN] at hs
          obtain ⟨h1, h2, -, -, -⟩ := hs
          subst h1; subst h2
          apply retroStep_noop_gen
          · rfl
          · decide
          · simp
          · simp [hasRole_removeRole_of_ne _ (by decide : MEMBER_ROLE ≠ NEWCOMER_ROLE),
              hA.1.1, hA.1.2]
          · simp [hasRole_removeRole_self]
        · simp [hA, hN] at hs
          obtain ⟨h1, h2, -, -, -⟩ := hs
          subst h1; subst h2
          apply retroStep_noop_gen
          · rfl
          · decide
          · simp
          · simp [hA.1.1, hA.1.2]
          · cases hnf : roleFound g NEWCOMER_ROLE <;>
              cases hnr : hasRole r NEWCOMER_ROLE <;> simp_all
      · by_cases hB : (rec0.verified = true ∧
            (roleFound g MEMBER_ROLE = false ∨ hasRole r MEMBER_ROLE = false)) ∧
            roleFound g MEMBER_ROLE = true
        · have hth : hasRole r MEMBER_ROLE = false := by
            rcases hB.1.2 with h | h
            · rw [hB.2] at h; exact absurd h (by decide)
            · exact h
          by_cases hN : roleFound g NEWCOMER_ROLE = true ∧ hasRole r NEWCOMER_ROLE = true
          · simp [hA, hB.1.1, hB.2, hth, hN] at hs
            obtain ⟨h1, h2, -, -, -⟩ := hs
            subst h1; subst h2
            apply retroStep_noop_gen
            · rfl
            · decide
            · simp [hB.1.1]
            · simp [hasRole_removeRole_of_ne _ (by decide : MEMBER_ROLE ≠ NEWCOMER_ROLE),
                hasRole_cons_self, hB.1.1, hB.2]
            · simp [hasRole_removeRole_self]
          · simp [hA, hB.1.1, hB.2, hth, hN] at hs
            obtain ⟨h1, h2, -, -, -⟩ := hs
            subst h1; subst h2
            apply retroStep_noop_gen
            · rfl
            · decide
            · simp [hB.1.1]
            · simp [hasRole_cons_self, hB.1.1, hB.2]
            · cases hnf : roleFound g NEWCOMER_ROLE <;>
                cases hnr : hasRole r NEWCOMER_ROLE <;>
                simp_all [hasRole_cons_of_ne (by decide : NEWCOMER_ROLE ≠ MEMBER_ROLE)]
        · by_cases hC : rec0.verified = true ∧ roleFound g NEWCOMER_ROLE = true ∧
              hasRole r NEWCOMER_ROLE = true
          · have hBred : ¬((roleFound g MEMBER_ROLE = false ∨ hasRole r MEMBER_ROLE = false) ∧
                roleFound g MEMBER_ROLE = true) := fun h => hB ⟨⟨hC.1, h.1⟩, h.2⟩
            simp [hA, hBred, hC] at hs
            obtain ⟨h1, h2, -, -, -⟩ := hs
            subst h1; subst h2
            apply retroStep_noop_gen
            · rfl
            · decide
            · simp [hC.1]
            · cases hmf : roleFound g MEMBER_ROLE <;>
                cases hth : hasRole r MEMBER_ROLE <;>
                simp_all [hasRole_removeRole_of_ne _
                  (by decide : MEMBER_ROLE ≠ NEWCOMER_ROLE)]
            · simp [hasRole_removeRole_self]
          · simp [hA, hB, hC] at hs
            obtain ⟨h1, h2, -, -, -⟩ := hs
            subst h1; subst h2
            apply retroStep_noop_gen
            · rfl
            · decide
            · cases hmf : roleFound g MEMBER_ROLE <;>
                cases hth : hasRole r MEMBER_ROLE <;>
                cases hv0 : rec0.verified <;> simp_all
            · cases hmf : roleFound g MEMBER_ROLE <;>
                cases hth : hasRole r MEMBER_ROLE <;>
                cases hv0 : rec0.verified <;> simp_all
            · cases hnf : roleFound g NEWCOMER_ROLE <;>
                cases hnr : hasRole r NEWCOMER_ROLE <;>
                cases hv0 : rec0.verified <;> simp_all
    · simp only [hcase, reduceIte] at hs
      by_cases hA : (roleFound g VISITOR_ROLE = true ∧ hasRole r VISITOR_ROLE = true) ∧
          rec0.verified = false
      · by_cases hN : roleFound g NEWCOMER_ROLE = true ∧ hasRole r NEWCOMER_ROLE = true
        · simp [hA, hN] at hs
          obtain ⟨h1, h2, -, -, -⟩ := hs
          subst h1; subst h2
          apply retroStep_noop_gen
          · rfl
          · decide
          · simp
          · simp [hasRole_removeRole_of_ne _ (by decide : VISITOR_ROLE ≠ NEWCOMER_ROLE),
              hA.1.1, hA.1.2]
          · simp [hasRole_removeRole_self]
        · simp [hA, hN] at hs
          obtain ⟨h1, h2, -, -, -⟩ := hs
          subst h1; subst h2
          apply retroStep_noop_gen
          · rfl
          · decide
          · simp
          · simp [hA.1.1, hA.1.2]
          · cases hnf : roleFound g NEWCOMER_ROLE <;>
              cases hnr : hasRole r NEWCOMER_ROLE <;> simp_all
      · by_cases hB : (rec0.verified = true ∧
            (roleFound g VISITOR_ROLE = false ∨ hasRole r VISITOR_ROLE = false)) ∧
            roleFound g VISITOR_ROLE = true
        · have hth : hasRole r VISITOR_ROLE = false := by
            rcases hB.1.2 with h | h
            · rw [hB.2] at h; exact absurd h (by decide)
            · exact h
          by_cases hN : roleFound g NEWCOMER_ROLE = true ∧ hasRole r NEWCOMER_ROLE = true
          · simp [hA, hB.1.1, hB.2, hth, hN] at hs
            obtain ⟨h1, h2, -, -, -⟩ := hs
            subst h1; subst h2
            apply retroStep_noop_gen
            · rfl
            · decide
            · simp [hB.1.1]
            · simp [hasRole_removeRole_of_ne _ (by decide : VISITOR_ROLE ≠ NEWCOMER_ROLE),
                hasRole_cons_self, hB.1.1, hB.2]
            · simp [hasRole_removeRole_self]
          · simp [hA, hB.1.1, hB.2, hth, hN] at hs
            obtain ⟨h1, h2, -, -, -⟩ := hs
            subst h1; subst h2
            apply retroStep_noop_gen
            · rfl
            · decide
            · simp [hB.1.1]
            · simp [hasRole_cons_self, hB.1.1, hB.2]
            · cases hnf : roleFound g NEWCOMER_ROLE <;>
                cases hnr : hasRole r NEWCOMER_ROLE <;>
                simp_all [hasRole_cons_of_ne (by decide : NEWCOMER_ROLE ≠ VISITOR_ROLE)]
        · by_cases hC : rec0.verified = true ∧ roleFound g NEWCOMER_ROLE = true ∧
              hasRole r NEWCOMER_ROLE = true
          · have hBred : ¬((roleFound g VISITOR_ROLE = false ∨ hasRole r VISITOR_ROLE = false) ∧
                roleFound g VISITOR_ROLE = true) := fun h => hB ⟨⟨hC.1, h.1⟩, h.2⟩
            simp [hA, hBred, hC] at hs
            obtain ⟨h1, h2, -, -, -⟩ := hs
            subst h1; subst h2
            apply retroStep_noop_gen
            · rfl
            · decide
            · simp [hC.1]
            · cases hmf : roleFound g VISITOR_ROLE <;>
                cases hth : hasRole r VISITOR_ROLE <;>
                simp_all [hasRole_removeRole_of_ne _
                  (by decide : VISITOR_ROLE ≠ NEWCOMER_ROLE)]
            · simp [hasRole_removeRole_self]
          · simp [hA, hB, hC] at hs
            obtain ⟨h1, h2, -, -, -⟩ := hs
            subst h1; subst h2
            apply retroStep_noop_gen
            · rfl
            · decide
            · cases hmf : roleFound g VISITOR_ROLE <;>
                cases hth : hasRole r VISITOR_ROLE <;>
                cases hv0 : rec0.verified <;> simp_all
            · cases hmf : roleFound g VISITOR_ROLE <;>
                cases hth : hasRole r VISITOR_ROLE <;>
                cases hv0 : rec0.verified <;> simp_all
            · cases hnf : roleFound g NEWCOMER_ROLE <;>
                cases hnr : hasRole r NEWCOMER_ROLE <;>
                cases hv0 : rec0.verified <;> simp_all

/-! ## Claim theorems -/

/-- Claim C1: for every user record and live role set, the gate
evaluation (`check_verification`) performs no role mutation and does
not set the verified flag unless `rulesOk`, `nickOk` and `classOk` all
hold, where `rulesOk`/`nickOk` come from the stored flags and `classOk`
is the stored `class_assigned` flag OR the member currently holding any
of the nine class roles.  (The conclusion `gateNoop` keeps the store
and role set unchanged and reports no mutation and no notice.) -/
theorem C1_gate_mutates_only_when_ready (env : GateEnv) (store : Option VRecord)
    (roles : List String)
    (h : ((store.getD emptyRecord).rules_accepted &&
          (store.getD emptyRecord).nickname_confirmed &&
          ((store.getD emptyRecord).class_assigned || hasAnyClassRole roles)) = false) :
    check_verification env store roles = gateNoop store roles :=
  check_verification_of_not_ready (by simpa [gateReady] using h)

theorem C1_witness :
    check_verification
        { guildRoles := ["Newcomer", "Guild Member", "Visitor"], hasOnboarding := true }
        none ["Newcomer"]
      = gateNoop none ["Newcomer"] :=
  C1_gate_mutates_only_when_ready _ none ["Newcomer"] (by decide)

/-- Claim C3: gate evaluation is idempotent.  Running
`check_verification` on the state produced by a first run changes
nothing further: the second run returns its input state unchanged and
reports no role mutation, no persistence and no notice. -/
theorem C3_gate_idempotent (env : GateEnv) (store : Option VRecord)
    (roles : List String) :
    check_verification env (check_verification env store roles).store
        (check_verification env store roles).roles
      = gateNoop (check_verification env store roles).store
          (check_verification env store roles).roles := by
  by_cases hr : gateReady store roles
  · by_cases ha : gateAllow env store roles
    · rw [check_verification_of_promote hr ha]
      apply check_verification_of_not_allowed
      have h1 := gatePromote_store_verified env store roles
      have h2 := gatePromote_newcomer_cleared env store roles
      simp only [gateAllow, h1, Bool.not_true, Bool.or_false]
      exact h2
    · have ha' : gateAllow env store roles = false := by simpa using ha
      rw [check_verification_of_not_allowed ha']
      exact check_verification_of_not_allowed ha'
  · have hr' : gateReady store roles = false := by simpa using hr
    rw [check_verification_of_not_ready hr']
    exact check_verification_of_not_ready hr'

/-- Claim C4: the reconciliation sweep converges in one pass.  For any
guild role configuration and any list of members (record entry and live
role set per member), running `retroSweep` a second time on the state
the first run produced returns that state unchanged with all three
mutation counters (`updated_db`, `added_role`, `removed_newcomer`) at
zero. -/
theorem C4_reconcile_sweep_converges (g : List String)
    (ms : List (Option VRecord × List String)) :
    retroSweep g (retroSweep g ms).1 = ((retroSweep g ms).1, 0, 0, 0) := by
  induction ms with
  | nil => simp [retroSweep]
  | cons m rest ih =>
    obtain ⟨s, r⟩ := m
    simp [retroSweep, retroStep_converges g s r, ih]

/-- Claim C2: anti-flip invariant.  For a user whose record is verified
and whose live roles do not include Newcomer: `allowPromotion` is
false, so the gate performs no promotion; the flag-set events return
early and change nothing; track selection is rejected (the user is not
new); and a class-reaction event leaves the stored track and the
granted track roles (Guild Member / Visitor) unchanged. -/
theorem C2_anti_flip (env : GateEnv) (store : Option VRecord) (roles : List String)
    (proposed cname : String)
    (hv : (store.getD emptyRecord).verified = true)
    (hn : NEWCOMER_ROLE ∉ roles)
    (hc : cname ∈ CLASS_ROLES) :
    gateAllow env store roles = false ∧
    check_verification env store roles = gateNoop store roles ∧
    accept_rules env store roles = (store, roles) ∧
    confirm_nickname env store roles = (store, roles) ∧
    is_new_user store roles = false ∧
    choose_track env proposed store roles
      = { store := store, roles := roles, accepted := false, persisted := false } ∧
    ((on_raw_reaction_class env cname store roles).store.getD emptyRecord).track
      = (store.getD emptyRecord).track ∧
    hasRole (on_raw_reaction_class env cname store roles).roles MEMBER_ROLE
      = hasRole roles MEMBER_ROLE ∧
    hasRole (on_raw_reaction_class env cname store roles).roles VISITOR_ROLE
      = hasRole roles VISITOR_ROLE := by
  have hn' : hasRole roles NEWCOMER_ROLE = false := by simpa [hasRole] using hn
  have hcnN : NEWCOMER_ROLE ≠ cname := fun e => newcomer_not_class (by rw [e]; exact hc)
  have hcnM : MEMBER_ROLE ≠ cname := fun e => member_not_class (by rw [e]; exact hc)
  have hcnV : VISITOR_ROLE ≠ cname := fun e => visitor_not_class (by rw [e]; exact hc)
  refine ⟨by simp [gateAllow, hv, hn'], gate_noop_of_verified_no_newcomer env hv hn',
    by simp [accept_rules, hv], by simp [confirm_nickname, hv],
    by simp [is_new_user, hv], by simp [choose_track, is_new_user, hv], ?_⟩
  by_cases hf : roleFound env.guildRoles cname
  · have hn2 : hasRole (addRole (removeAllClassRoles env.guildRoles roles) cname)
        NEWCOMER_ROLE = false := by
      simp [hasRole, mem_addRole, mem_removeAllClassRoles, hn, hcnN]
    have hv2 : ((some { store.getD emptyRecord with class_assigned := true }
        : Option VRecord).getD emptyRecord).verified = true := by simpa using hv
    have hgn := gate_noop_of_verified_no_newcomer env hv2 hn2
    refine ⟨?_, ?_, ?_⟩ <;>
      simp [on_raw_reaction_class, hf, hgn, gateNoop,
        hasRole_addRole_of_ne hcnM, hasRole_addRole_of_ne hcnV,
        hasRole_removeAllClassRoles_of_not_class member_not_class,
        hasRole_removeAllClassRoles_of_not_class visitor_not_class]
  · refine ⟨?_, ?_, ?_⟩ <;>
      simp [on_raw_reaction_class, hf,
        hasRole_addRole_of_ne hcnM, hasRole_addRole_of_ne hcnV,
        hasRole_removeAllClassRoles_of_not_class member_not_class,
        hasRole_removeAllClassRoles_of_not_class visitor_not_class]

theorem C2_witness :
    gateAllow ⟨["Newcomer", "Guild Member", "Visitor", "Warrior"], true⟩
      (some ⟨some "member", true, true, true, true⟩)
      ["Guild Member", "Mage"] = false ∧
    is_new_user (some ⟨some "member", true, true, true, true⟩)
      ["Guild Member", "Mage"] = false :=
  ⟨(C2_anti_flip ⟨["Newcomer", "Guild Member", "Visitor", "Warrior"], true⟩
      (some ⟨some "member", true, true, true, true⟩) ["Guild Member", "Mage"]
      "visitor" "Warrior" (by decide) (by decide) (by decide)).1,
   (C2_anti_flip ⟨["Newcomer", "Guild Member", "Visitor", "Warrior"], true⟩
      (some ⟨some "member", true, true, true, true⟩) ["Guild Member", "Mage"]
      "visitor" "Warrior" (by decide) (by decide) (by decide)).2.2.2.2.1⟩

theorem mem_boundDestIds_of {st : MirrorState} {p : String × MirrorInfo} {d : Nat}
    (hp : p ∈ st.mirrors) (hd : p.2.dest_msg_id = some d) (h0 : d ≠ 0) :
    d ∈ boundDestIds st := by
  simp only [boundDestIds, List.mem_filterMap]
  exact ⟨p, hp, by simp [hd, h0]⟩

/-- Claim C5: week rollover purge.  When the computed week key differs
from the stored one, `_ensure_week` resets the mirrors map to empty,
persists the new state, and (when the destination channel exists) every
currently bound destination message is deleted or found already gone;
when the stored week key matches, the state, the live messages and the
persistence flag are untouched. -/
theorem C5_ensure_week_rollover (wk : String) (destChannelFound : Bool)
    (st : MirrorState) (live : List Nat) :
    (st.week_key ≠ some wk →
      (ensure_week wk destChannelFound st live).state
          = { week_key := some wk, mirrors := [] } ∧
      (ensure_week wk destChannelFound st live).persisted = true ∧
      (destChannelFound = true →
        ∀ p ∈ st.mirrors, ∀ d, p.2.dest_msg_id = some d → d ≠ 0 →
          d ∉ (ensure_week wk destChannelFound st live).live)) ∧
    (st.week_key = some wk →
      ensure_week wk destChannelFound st live
        = { state := st, live := live, persisted := false }) := by
  constructor
  · intro hne
    refine ⟨by simp [ensure_week, hne], by simp [ensure_week, hne], ?_⟩
    intro hdc p hp d hd h0
    subst hdc
    simp [ensure_week, hne, List.mem_filter]
    intro hdl
    exact mem_boundDestIds_of hp hd h0
  · intro heq
    simp [ensure_week, heq]

theorem C5_witness :
    (ensure_week "2024-W11" true
        ⟨some "2024-W10", [("AQ20-Thursday", ⟨some 100, some 500⟩)]⟩ [500]).state
      = ⟨some "2024-W11", []⟩ ∧
    (500 : Nat) ∉ (ensure_week "2024-W11" true
        ⟨some "2024-W10", [("AQ20-Thursday", ⟨some 100, some 500⟩)]⟩ [500]).live ∧
    ensure_week "2024-W10" true
        ⟨some "2024-W10", [("AQ20-Thursday", ⟨some 100, some 500⟩)]⟩ [500]
      = ⟨⟨some "2024-W10", [("AQ20-Thursday", ⟨some 100, some 500⟩)]⟩, [500], false⟩ :=
  ⟨((C5_ensure_week_rollover "2024-W11" true
      ⟨some "2024-W10", [("AQ20-Thursday", ⟨some 100, some 500⟩)]⟩ [500]).1
        (by decide)).1,
   ((C5_ensure_week_rollover "2024-W11" true
      ⟨some "2024-W10", [("AQ20-Thursday", ⟨some 100, some 500⟩)]⟩ [500]).1
        (by decide)).2.2 rfl ("AQ20-Thursday", ⟨some 100, some 500⟩) (by decide)
        500 rfl (by decide),
   (C5_ensure_week_rollover "2024-W10" true
      ⟨some "2024-W10", [("AQ20-Thursday", ⟨some 100, some 500⟩)]⟩ [500]).2 rfl⟩

theorem alookup_cons {k : String} {p : String × MirrorInfo} {l : List (String × MirrorInfo)} :
    alookup k (p :: l) = if p.1 = k then some p.2 else alookup k l := by
  by_cases h : p.1 = k <;> simp [alookup, List.find?, h]

theorem alookup_apop_of_ne {k k' : String} (h : k' ≠ k)
    (l : List (String × MirrorInfo)) : alookup k' (apop k l) = alookup k' l := by
  induction l with
  | nil => rfl
  | cons p rest ih =>
    simp only [apop, List.filter_cons] at ih ⊢
    by_cases hp : p.1 = k
    · have hd : (decide (p.1 ≠ k)) = false := by simp [hp]
      rw [hd]
      simp only [Bool.false_eq_true, if_false]
      rw [ih, alookup_cons]
      have hne : ¬(p.1 = k') := by rw [hp]; exact fun e => h e.symm
      rw [if_neg hne]
    · have hd : (decide (p.1 ≠ k)) = true := by simp [hp]
      rw [hd]
      simp only [if_true]
      rw [alookup_cons, alookup_cons, ih]

theorem alookup_ainsert_self (k : String) (v : MirrorInfo)
    (l : List (String × MirrorInfo)) : alookup k (ainsert k v l) = some v := by
  simp [ainsert, alookup_cons]

theorem alookup_ainsert_of_ne {k k' : String} (h : k' ≠ k) (v : MirrorInfo)
    (l : List (String × MirrorInfo)) :
    alookup k' (ainsert k v l) = alookup k' l := by
  have hne : ¬((k, v).1 = k') := fun e => h e.symm
  simp only [ainsert, alookup_cons, if_neg hne]
  exact alookup_apop_of_ne h l

theorem apop_keys_sublist (k : String) (l : List (String × MirrorInfo)) :
    ((apop k l).map Prod.fst).Sublist (l.map Prod.fst) :=
  List.Sublist.map Prod.fst (List.filter_sublist l)

theorem not_mem_apop_keys (k : String) (l : List (String × MirrorInfo)) :
    k ∉ (apop k l).map Prod.fst := by
  simp [apop, List.mem_map, List.mem_filter]

theorem mirrorInv_init (wk : String) : MirrorInv (mirrorInit wk) := by
  simp [MirrorInv, mirrorInit]

/-- Core of the `_post_or_replace` invariant step: whatever the
delete-old phase left (`live1`), as long as it is a sub-multiset of the
old live messages containing nothing bound to `raidkey`, binding and
sending the fresh message keeps the invariant. -/
theorem mirrorInv_post_core {w : MirrorWorld} (raidkey : String) (srcId : Nat)
    (live1 : List DestMsg)
    (h1 : ∀ m ∈ w.live, ∃ i, alookup m.key w.st.mirrors = some i ∧
        i.dest_msg_id = some m.id)
    (h2 : ∀ m ∈ w.live, m.id < w.nextId)
    (h3 : ∀ m ∈ w.live, 0 < m.id)
    (h5 : (w.st.mirrors.map Prod.fst).Nodup)
    (h6 : 1 ≤ w.nextId)
    (hsub : ∀ m ∈ live1, m ∈ w.live)
    (hnd1 : live1.Nodup)
    (hkey : ∀ m ∈ live1, m.key ≠ raidkey) :
    MirrorInv
      { st := { week_key := w.st.week_key,
                mirrors := ainsert raidkey
                  { source_msg_id := some srcId, dest_msg_id := some w.nextId }
                  w.st.mirrors },
        live := live1 ++ [{ id := w.nextId, key := raidkey }],
        nextId := w.nextId + 1 } := by
  refine ⟨?_, ?_, ?_, ?_, ?_, ?_⟩
  · intro m hm
    rw [List.mem_append] at hm
    rcases hm with hm | hm
    · obtain ⟨i, hlk, hdest⟩ := h1 m (hsub m hm)
      exact ⟨i, by rwa [alookup_ainsert_of_ne (hkey m hm)], hdest⟩
    · simp only [List.mem_singleton] at hm
      subst hm
      exact ⟨_, alookup_ainsert_self raidkey _ w.st.mirrors, rfl⟩
  · intro m hm
    rw [List.mem_append] at hm
    rcases hm with hm | hm
    · exact Nat.lt_succ_of_lt (h2 m (hsub m hm))
    · simp only [List.mem_singleton] at hm
      subst hm
      exact Nat.lt_succ_self _
  · intro m hm
    rw [List.mem_append] at hm
    rcases hm with hm | hm
    · exact h3 m (hsub m hm)
    · simp only [List.mem_singleton] at hm
      subst hm
      exact h6
  · rw [List.nodup_append]
    refine ⟨hnd1, List.nodup_singleton _, ?_⟩
    intro m hm hm2
    simp only [List.mem_singleton] at hm2
    subst hm2
    exact absurd (h2 _ (hsub _ hm)) (by simp)
  · simp only [ainsert, List.map_cons, List.nodup_cons]
    exact ⟨not_mem_apop_keys raidkey w.st.mirrors,
      (apop_keys_sublist raidkey w.st.mirrors).nodup h5⟩
  · exact Nat.le_succ_of_le h6

theorem mirrorInv_post (destChannelFound : Bool) (raidkey : String) (srcId : Nat)
    (srcHasEmbeds : Bool) {w : MirrorWorld} (hw : MirrorInv w) :
    MirrorInv (post_or_replace destChannelFound raidkey srcId srcHasEmbeds w) := by
  obtain ⟨h1, h2, h3, h4, h5, h6⟩ := hw
  by_cases hemb : srcHasEmbeds
  case neg => simpa [post_or_replace, hemb] using ⟨h1, h2, h3, h4, h5, h6⟩
  case pos =>
  by_cases hdcf : destChannelFound
  case neg => simpa [post_or_replace, hemb, hdcf] using ⟨h1, h2, h3, h4, h5, h6⟩
  case pos =>
  rcases halk : alookup raidkey w.st.mirrors with _ | info
  · simp only [post_or_replace, hemb, hdcf, halk, Bool.not_true, Bool.false_eq_true,
      if_false]
    refine mirrorInv_post_core raidkey srcId w.live h1 h2 h3 h5 h6
      (fun m hm => hm) h4 ?_
    intro m hm hk
    obtain ⟨i, hlk, -⟩ := h1 m hm
    rw [hk, halk] at hlk
    cases hlk
  · by_cases ht : truthy info.dest_msg_id
    · simp only [post_or_replace, hemb, hdcf, halk, ht, Bool.not_true,
        Bool.false_eq_true, if_false, if_true]
      refine mirrorInv_post_core raidkey srcId _ h1 h2 h3 h5 h6
        (fun m hm => (List.mem_filter.mp hm).1) (h4.filter _) ?_
      intro m hm hk
      rw [List.mem_filter] at hm
      obtain ⟨i, hlk, hdest⟩ := h1 m hm.1
      rw [hk, halk] at hlk
      have : info = i := by injection hlk
      subst this
      have := hm.2
      rw [hdest] at this
      simp at this
    · simp only [post_or_replace, hemb, hdcf, halk, ht, Bool.not_true,
        Bool.false_eq_true, if_false]
      refine mirrorInv_post_core raidkey srcId w.live h1 h2 h3 h5 h6
        (fun m hm => hm) h4 ?_
      intro m hm hk
      obtain ⟨i, hlk, hdest⟩ := h1 m hm
      rw [hk, halk] at hlk
      have : info = i := by injection hlk
      subst this
      rw [hdest] at ht
      have hpos := h3 m hm
      simp [truthy, Nat.pos_iff_ne_zero.mp hpos] at ht

theorem mirrorInv_update (destChannelFound : Bool) (raidkey : String)
    (srcHasEmbeds : Bool) {w : MirrorWorld} (hw : MirrorInv w) :
    MirrorInv (update_mirror destChannelFound raidkey srcHasEmbeds w) := by
  obtain ⟨h1, h2, h3, h4, h5, h6⟩ := hw
  rw [update_mirror]
  rcases halk : alookup raidkey w.st.mirrors with _ | stored
  · exact ⟨h1, h2, h3, h4, h5, h6⟩
  · by_cases ht : truthy stored.dest_msg_id
    case neg => simpa [ht] using ⟨h1, h2, h3, h4, h5, h6⟩
    case pos =>
    by_cases hemb : srcHasEmbeds
    case neg => simpa [ht, hemb] using ⟨h1, h2, h3, h4, h5, h6⟩
    case pos =>
    by_cases hdcf : destChannelFound
    case neg => simpa [ht, hemb, hdcf] using ⟨h1, h2, h3, h4, h5, h6⟩
    case pos =>
    by_cases hany : w.live.any (fun m => decide (some m.id = stored.dest_msg_id))
    · simpa [ht, hemb, hdcf, hany] using ⟨h1, h2, h3, h4, h5, h6⟩
    · simp only [ht, hemb, hdcf, hany, Bool.not_true, Bool.false_eq_true, if_false,
        if_true, Bool.not_false]
      refine ⟨?_, h2, h3, h4, (apop_keys_sublist raidkey w.st.mirrors).nodup h5, h6⟩
      intro m hm
      by_cases hk : m.key = raidkey
      · exfalso
        obtain ⟨i, hlk, hdest⟩ := h1 m hm
        rw [hk, halk] at hlk
        have : stored = i := by injection hlk
        subst this
        have hcontra : w.live.any
            (fun m => decide (some m.id = stored.dest_msg_id)) = true := by
          rw [List.any_eq_true]
          exact ⟨m, hm, by simp [hdest]⟩
        exact hany hcontra
      · obtain ⟨i, hlk, hdest⟩ := h1 m hm
        exact ⟨i, by rwa [alookup_apop_of_ne hk], hdest⟩

theorem mirrorInv_apply (op : MOp) {w : MirrorWorld} (hw : MirrorInv w) :
    MirrorInv (MOp.apply w op) := by
  cases op with
  | post raidkey srcId srcHasEmbeds destChannelFound =>
    exact mirrorInv_post destChannelFound raidkey srcId srcHasEmbeds hw
  | edit raidkey srcHasEmbeds destChannelFound =>
    exact mirrorInv_update destChannelFound raidkey srcHasEmbeds hw

theorem mirrorInv_applyOps (ops : List MOp) {w : MirrorWorld} (hw : MirrorInv w) :
    MirrorInv (applyMirrorOps w ops) := by
  induction ops generalizing w with
  | nil => exact hw
  | cons op rest ih => exact ih (mirrorInv_apply op hw)

theorem length_le_one_of_all_eq {α : Type} {l : List α} (hnd : l.Nodup)
    (h : ∀ x ∈ l, ∀ y ∈ l, x = y) : l.length ≤ 1 := by
  match l with
  | [] => simp
  | [x] => simp
  | x :: y :: t =>
    exfalso
    have hxy := h x (by simp) y (by simp)
    rw [List.nodup_cons] at hnd
    exact hnd.1 (by rw [hxy]; simp)

/-- Claim C6: mirror uniqueness.  Starting from the state the week
rollover leaves (empty mirrors, no live destination message of the
week), after any sequence of `postOrReplace` / `updateInPlace` events
at most one destination message of the week is live per raid-key and at
most one destination message id is bound per raid-key. -/
theorem C6_mirror_uniqueness (wk : String) (ops : List MOp) (k : String) :
    ((applyMirrorOps (mirrorInit wk) ops).live.filter
        (fun m => decide (m.key = k))).length ≤ 1 ∧
    ((applyMirrorOps (mirrorInit wk) ops).st.mirrors.filter
        (fun p => decide (p.1 = k))).length ≤ 1 := by
  obtain ⟨h1, -, -, h4, h5, -⟩ := mirrorInv_applyOps ops (mirrorInv_init wk)
  constructor
  · apply length_le_one_of_all_eq (h4.filter _)
    intro x hx y hy
    rw [List.mem_filter] at hx hy
    obtain ⟨hx1, hx2⟩ := hx
    obtain ⟨hy1, hy2⟩ := hy
    simp only [decide_eq_true_iff] at hx2 hy2
    obtain ⟨i, hlkx, hdx⟩ := h1 x hx1
    obtain ⟨j, hlky, hdy⟩ := h1 y hy1
    rw [hx2] at hlkx
    rw [hy2] at hlky
    rw [hlkx] at hlky
    have hij : i = j := by injection hlky
    subst hij
    have hid : x.id = y.id := by
      have hxy := hdx.symm.trans hdy
      injection hxy
    cases x; cases y
    simp_all
  · apply length_le_one_of_all_eq ((List.Nodup.of_map _ h5).filter _)
    intro x hx y hy
    rw [List.mem_filter] at hx hy
    obtain ⟨hx1, hx2⟩ := hx
    obtain ⟨hy1, hy2⟩ := hy
    simp only [decide_eq_true_iff] at hx2 hy2
    exact List.inj_on_of_nodup_map h5 hx1 hy1 (hx2.trans hy2.symm)

theorem exists_track_role_iff (roles : List String) :
    (∃ r ∈ roles, r = MEMBER_ROLE ∨ r = VISITOR_ROLE)
      ↔ (MEMBER_ROLE ∈ roles ∨ VISITOR_ROLE ∈ roles) := by
  constructor
  · rintro ⟨r, hr, rfl | rfl⟩
    · exact Or.inl hr
    · exact Or.inr hr
  · rintro (h | h)
    · exact ⟨_, h, Or.inl rfl⟩
    · exact ⟨_, h, Or.inr rfl⟩

theorem ne_ite_of_ne {x a b : String} {c : Prop} [Decidable c] (ha : x ≠ a)
    (hb : x ≠ b) : x ≠ if c then a else b := by
  by_cases h : c <;> simp [h, ha, hb]

theorem mem_condCons (b : Bool) (n : String) (l : List String) (x : String)
    (h : x ≠ n) : x ∈ (if b then n :: l else l) ↔ x ∈ l := by
  cases b <;> simp [h]

theorem mem_condRemove (b : Bool) (n : String) (l : List String) (x : String)
    (h : x ≠ n) : x ∈ (if b then removeRole l n else l) ↔ x ∈ l := by
  cases b <;> simp [mem_removeRole, h]

/-- The gate only ever adds or removes the two track roles and
Newcomer: membership of any other role name is untouched. -/
theorem gate_mem_roles {env : GateEnv} {store : Option VRecord} {roles : List String}
    {x : String} (hm : x ≠ MEMBER_ROLE) (hv : x ≠ VISITOR_ROLE)
    (hn : x ≠ NEWCOMER_ROLE) :
    (x ∈ (check_verification env store roles).roles ↔ x ∈ roles) := by
  by_cases hr : gateReady store roles
  · by_cases ha : gateAllow env store roles
    · rw [check_verification_of_promote hr ha]
      simp only [gatePromote]
      rw [mem_condRemove _ _ _ _ hn, mem_condRemove _ _ _ _ (ne_ite_of_ne hv hm),
        mem_condCons _ _ _ _ (ne_ite_of_ne hm hv)]
    · rw [check_verification_of_not_allowed (by simpa using ha)]
      exact Iff.rfl
  · rw [check_verification_of_not_ready (by simpa using hr)]
    exact Iff.rfl

/-- The gate never rewrites any stored field other than `verified`. -/
theorem gate_store_fields (env : GateEnv) (store : Option VRecord)
    (roles : List String) :
    ((check_verification env store roles).store.getD emptyRecord).track
      = (store.getD emptyRecord).track ∧
    ((check_verification env store roles).store.getD emptyRecord).rules_accepted
      = (store.getD emptyRecord).rules_accepted ∧
    ((check_verification env store roles).store.getD emptyRecord).nickname_confirmed
      = (store.getD emptyRecord).nickname_confirmed ∧
    ((check_verification env store roles).store.getD emptyRecord).class_assigned
      = (store.getD emptyRecord).class_assigned := by
  by_cases hr : gateReady store roles
  · by_cases ha : gateAllow env store roles
    · rw [check_verification_of_promote hr ha]
      by_cases hv : (store.getD emptyRecord).verified <;> simp [gatePromote, hv]
    · rw [check_verification_of_not_allowed (by simpa using ha)]
      exact ⟨rfl, rfl, rfl, rfl⟩
  · rw [check_verification_of_not_ready (by simpa using hr)]
    exact ⟨rfl, rfl, rfl, rfl⟩

/-- The reaction handler's class-assignment path is the same state
transition as the dropdown callback's. -/
theorem reaction_eq_callback (env : GateEnv) (c : String) (s : Option VRecord)
    (r : List String) :
    on_raw_reaction_class env c s r = class_select_callback env c s r := rfl

/-- Claim C7 counterexample: `save_verified` emits no rename at all —
the data is dumped straight into the backing file, so the claimed
write-temp-then-rename protocol is not what the code does. -/
theorem C7_counterexample :
    usesTempThenRename (save_verified_trace "records") VERIFIED_DB = false ∧
    save_verified_trace "records"
      = [FsOp.openTruncate VERIFIED_DB, FsOp.writeAll VERIFIED_DB "records"] :=
  ⟨rfl, rfl⟩

/-- Claim C7 (amended): `save_verified` overwrites the backing file in
place — a truncating open followed by the write, with no temporary file
and no rename; interrupting it right after the truncating open leaves
the file empty, destroying the previously persisted state, and only a
completed run leaves the new data. -/
theorem C7_amended_save_overwrites_in_place (data old : String) :
    save_verified_trace data
      = [FsOp.openTruncate VERIFIED_DB, FsOp.writeAll VERIFIED_DB data] ∧
    usesTempThenRename (save_verified_trace data) VERIFIED_DB = false ∧
    fileContent (runFs [(VERIFIED_DB, old)] (save_verified_trace data)) VERIFIED_DB
      = some data ∧
    fileContent (runFs [(VERIFIED_DB, old)] [FsOp.openTruncate VERIFIED_DB])
        VERIFIED_DB = some "" :=
  ⟨rfl, rfl, rfl, rfl⟩

/-- Claim C8: track selection.  `_is_new_user` is exactly "not verified
AND (has Newcomer OR has neither Guild Member nor Visitor)"; the track
buttons reject (changing nothing) exactly when the user is not new, and
on accept store the proposed track when it is one of the two valid
tracks and the default track otherwise, persisting the record. -/
theorem C8_select_track (env : GateEnv) (proposed : String) (store : Option VRecord)
    (roles : List String) :
    (is_new_user store roles
      = (!(store.getD emptyRecord).verified &&
         (hasRole roles NEWCOMER_ROLE ||
          !(hasRole roles MEMBER_ROLE || hasRole roles VISITOR_ROLE)))) ∧
    (is_new_user store roles = false →
      choose_track env proposed store roles
        = { store := store, roles := roles, accepted := false, persisted := false }) ∧
    (is_new_user store roles = true →
      (choose_track env proposed store roles).accepted = true ∧
      (choose_track env proposed store roles).persisted = true ∧
      ((choose_track env proposed store roles).store.getD emptyRecord).track
        = some (if proposed ∈ VALID_TRACKS then proposed else DEFAULT_TRACK)) := by
  refine ⟨?_, ?_, ?_⟩
  · by_cases h1 : (store.getD emptyRecord).verified <;>
    by_cases h2 : NEWCOMER_ROLE ∈ roles <;>
    by_cases h3 : MEMBER_ROLE ∈ roles <;>
    by_cases h4 : VISITOR_ROLE ∈ roles <;>
    simp [is_new_user, hasRole, h1, h2, h3, h4, exists_track_role_iff]
  · intro h
    simp [choose_track, h]
  · intro h
    refine ⟨by simp [choose_track, h], by simp [choose_track, h], ?_⟩
    have hred : (choose_track env proposed store roles).store
        = (check_verification env (some (set_track store proposed)) roles).store := by
      simp [choose_track, h]
    rw [hred, (gate_store_fields env (some (set_track store proposed)) roles).1]
    simp [set_track]

theorem C8_witness :
    (choose_track ⟨["Newcomer", "Guild Member", "Visitor"], true⟩ "visitor" none
        ["Newcomer"]).accepted = true ∧
    ((choose_track ⟨["Newcomer", "Guild Member", "Visitor"], true⟩ "visitor" none
        ["Newcomer"]).store.getD emptyRecord).track = some "visitor" ∧
    choose_track ⟨["Newcomer", "Guild Member", "Visitor"], true⟩ "visitor"
        (some ⟨some "member", true, true, true, true⟩) ["Guild Member"]
      = { store := some ⟨some "member", true, true, true, true⟩,
          roles := ["Guild Member"], accepted := false, persisted := false } :=
  ⟨((C8_select_track ⟨["Newcomer", "Guild Member", "Visitor"], true⟩ "visitor" none
      ["Newcomer"]).2.2 (by decide)).1,
   ((C8_select_track ⟨["Newcomer", "Guild Member", "Visitor"], true⟩ "visitor" none
      ["Newcomer"]).2.2 (by decide)).2.2,
   (C8_select_track ⟨["Newcomer", "Guild Member", "Visitor"], true⟩ "visitor"
      (some ⟨some "member", true, true, true, true⟩) ["Guild Member"]).2.1
      (by decide)⟩

/-- Claim C9: class-role exclusivity.  When a class selection (dropdown
callback or class-emoji reaction) completes successfully — the selected
class role exists in the guild — the member afterwards holds exactly
one of the nine class roles, the selected one, and `class_assigned` is
latched; the removal pass runs for every user regardless of
verification state. -/
theorem C9_class_role_exclusive (env : GateEnv) (selected : String)
    (store : Option VRecord) (roles : List String)
    (hsub : ∀ r ∈ roles, r ∈ env.guildRoles)
    (hsel : selected ∈ CLASS_ROLES)
    (hex : selected ∈ env.guildRoles) :
    ((class_select_callback env selected store roles).success = true ∧
     (∀ c ∈ CLASS_ROLES,
        (c ∈ (class_select_callback env selected store roles).roles ↔ c = selected)) ∧
     ((class_select_callback env selected store roles).store.getD
        emptyRecord).class_assigned = true) ∧
    ((on_raw_reaction_class env selected store roles).success = true ∧
     (∀ c ∈ CLASS_ROLES,
        (c ∈ (on_raw_reaction_class env selected store roles).roles ↔ c = selected)) ∧
     ((on_raw_reaction_class env selected store roles).store.getD
        emptyRecord).class_assigned = true) := by
  have hexB : roleFound env.guildRoles selected = true := by simp [roleFound, hex]
  have hmain : (class_select_callback env selected store roles).success = true ∧
      (∀ c ∈ CLASS_ROLES,
        (c ∈ (class_select_callback env selected store roles).roles ↔ c = selected)) ∧
      ((class_select_callback env selected store roles).store.getD
        emptyRecord).class_assigned = true := by
    refine ⟨by simp [class_select_callback, hexB], ?_, ?_⟩
    · intro c hc
      have hcm : c ≠ MEMBER_ROLE := fun e => member_not_class (e ▸ hc)
      have hcv : c ≠ VISITOR_ROLE := fun e => visitor_not_class (e ▸ hc)
      have hcn : c ≠ NEWCOMER_ROLE := fun e => newcomer_not_class (e ▸ hc)
      have hred : (class_select_callback env selected store roles).roles
          = (check_verification env
              (some { store.getD emptyRecord with class_assigned := true })
              (addRole (removeAllClassRoles env.guildRoles roles) selected)).roles := by
        simp [class_select_callback, hexB]
      rw [hred, gate_mem_roles hcm hcv hcn, mem_addRole, mem_removeAllClassRoles]
      constructor
      · rintro (h | ⟨hcr, hno⟩)
        · exact h
        · exact absurd ⟨hc, hsub c hcr⟩ hno
      · rintro rfl
        exact Or.inl rfl
    · have hred : (class_select_callback env selected store roles).store
          = (check_verification env
              (some { store.getD emptyRecord with class_assigned := true })
              (addRole (removeAllClassRoles env.guildRoles roles) selected)).store := by
        simp [class_select_callback, hexB]
      rw [hred, (gate_store_fields env _ _).2.2.2]
      rfl
  exact ⟨hmain, by rw [reaction_eq_callback]; exact hmain⟩

theorem C9_witness :
    (class_select_callback
        ⟨["Newcomer", "Guild Member", "Visitor", "Mage", "Warrior"], true⟩
        "Warrior" none ["Guild Member", "Mage"]).success = true ∧
    ("Warrior" ∈ (class_select_callback
        ⟨["Newcomer", "Guild Member", "Visitor", "Mage", "Warrior"], true⟩
        "Warrior" none ["Guild Member", "Mage"]).roles ↔ "Warrior" = "Warrior") ∧
    ("Mage" ∈ (class_select_callback
        ⟨["Newcomer", "Guild Member", "Visitor", "Mage", "Warrior"], true⟩
        "Warrior" none ["Guild Member", "Mage"]).roles ↔ "Mage" = "Warrior") :=
  ⟨(C9_class_role_exclusive
      ⟨["Newcomer", "Guild Member", "Visitor", "Mage", "Warrior"], true⟩
      "Warrior" none ["Guild Member", "Mage"]
      (by decide) (by decide) (by decide)).1.1,
   (C9_class_role_exclusive
      ⟨["Newcomer", "Guild Member", "Visitor", "Mage", "Warrior"], true⟩
      "Warrior" none ["Guild Member", "Mage"]
      (by decide) (by decide) (by decide)).1.2.1 "Warrior" (by decide),
   (C9_class_role_exclusive
      ⟨["Newcomer", "Guild Member", "Visitor", "Mage", "Warrior"], true⟩
      "Warrior" none ["Guild Member", "Mage"]
      (by decide) (by decide) (by decide)).1.2.1 "Mage" (by decide)⟩

/-- Claim C10: the admin class reset only touches the class dimension —
`class_assigned` becomes false and the held class roles are removed
(those the guild still defines), while `verified`, `track`,
`rules_accepted`, `nickname_confirmed` and the non-class roles
(Guild Member, Visitor, Newcomer among them) are untouched. -/
theorem C10_resetclass_frame (guildRoles : List String) (store : Option VRecord)
    (roles : List String) (hsub : ∀ r ∈ roles, r ∈ guildRoles) :
    ((resetclass_core guildRoles store roles).1.getD
        emptyRecord).class_assigned = false ∧
    ((resetclass_core guildRoles store roles).1.getD emptyRecord).verified
      = (store.getD emptyRecord).verified ∧
    ((resetclass_core guildRoles store roles).1.getD emptyRecord).track
      = (store.getD emptyRecord).track ∧
    ((resetclass_core guildRoles store roles).1.getD emptyRecord).rules_accepted
      = (store.getD emptyRecord).rules_accepted ∧
    ((resetclass_core guildRoles store roles).1.getD emptyRecord).nickname_confirmed
      = (store.getD emptyRecord).nickname_confirmed ∧
    (∀ c ∈ CLASS_ROLES, c ∉ (resetclass_core guildRoles store roles).2) ∧
    (∀ r, r ∉ CLASS_ROLES →
      (r ∈ (resetclass_core guildRoles store roles).2 ↔ r ∈ roles)) := by
  refine ⟨rfl, rfl, rfl, rfl, rfl, ?_, ?_⟩
  · intro c hc
    simp only [resetclass_core]
    rw [mem_removeAllClassRoles]
    exact fun h => h.2 ⟨hc, hsub c h.1⟩
  · intro r hr
    simp [resetclass_core, mem_removeAllClassRoles, hr]

theorem C10_witness :
    ((resetclass_core ["Newcomer", "Guild Member", "Visitor", "Mage"]
        (some ⟨some "member", true, true, true, true⟩)
        ["Guild Member", "Mage"]).1.getD emptyRecord).class_assigned = false ∧
    ((resetclass_core ["Newcomer", "Guild Member", "Visitor", "Mage"]
        (some ⟨some "member", true, true, true, true⟩)
        ["Guild Member", "Mage"]).1.getD emptyRecord).verified = true ∧
    ("Mage" ∉ (resetclass_core ["Newcomer", "Guild Member", "Visitor", "Mage"]
        (some ⟨some "member", true, true, true, true⟩)
        ["Guild Member", "Mage"]).2) ∧
    ("Guild Member" ∈ (resetclass_core ["Newcomer", "Guild Member", "Visitor", "Mage"]
        (some ⟨some "member", true, true, true, true⟩)
        ["Guild Member", "Mage"]).2 ↔
      "Guild Member" ∈ (["Guild Member", "Mage"] : List String)) :=
  ⟨(C10_resetclass_frame ["Newcomer", "Guild Member", "Visitor", "Mage"]
      (some ⟨some "member", true, true, true, true⟩) ["Guild Member", "Mage"]
      (by decide)).1,
   (C10_resetclass_frame ["Newcomer", "Guild Member", "Visitor", "Mage"]
      (some ⟨some "member", true, true, true, true⟩) ["Guild Member", "Mage"]
      (by decide)).2.1,
   (C10_resetclass_frame ["Newcomer", "Guild Member", "Visitor", "Mage"]
      (some ⟨some "member", true, true, true, true⟩) ["Guild Member", "Mage"]
      (by decide)).2.2.2.2.2.1 "Mage" (by decide),
   (C10_resetclass_frame ["Newcomer", "Guild Member", "Visitor", "Mage"]
      (some ⟨some "member", true, true, true, true⟩) ["Guild Member", "Mage"]
      (by decide)).2.2.2.2.2.2 "Guild Member" (by decide)⟩

end Gatekeeper
